import Mathlib

/-!
Shallow embedding of the `serialport` crate's Windows serial-port core.

Sources embedded here:
  * `src/config.rs`           — the configuration enums
  * `src/builder.rs`          — `SerialPortBuilder` (the stored configuration)
  * `src/serialport/windows/dcb.rs` — `WindowsDCB`, the configuration translator
  * `src/serialport/windows/mod.rs` — the `SerialPort` state machine
  * `src/windows/com.rs`      — `ComPort` (identical lifecycle/translator code,
    plus `bytes_to_read` / `bytes_to_write` / `clear`)
  * `src/serialport/mod.rs` and `src/lib.rs` — the `set_port` / `set_path` wrapper

The OS (winapi) is outside the repository; every OS call is modelled by an
oracle (`OsEnv`) giving the call's outcome, parameterised by the handle and
the value passed, so theorems can quantify over OS behaviour.  Machine
integers are modelled as `Nat` with explicit `% 2^w` where the source casts.
-/

/-- Windows `HANDLE`: `none` models `INVALID_HANDLE_VALUE`. -/
abbrev Handle := Option Nat

/-- `DWORD` maximum (`winapi::um::winnt::MAXDWORD` = `0xFFFFFFFF`). -/
def MAXDWORD : Nat := 4294967295

/-- `winbase::ONESTOPBIT`. -/
def ONESTOPBIT : Nat := 0
/-- `winbase::ONE5STOPBITS`. -/
def ONE5STOPBITS : Nat := 1
/-- `winbase::TWOSTOPBITS`. -/
def TWOSTOPBITS : Nat := 2
/-- `winbase::NOPARITY`. -/
def NOPARITY : Nat := 0
/-- `winbase::ODDPARITY`. -/
def ODDPARITY : Nat := 1
/-- `winbase::EVENPARITY`. -/
def EVENPARITY : Nat := 2
/-- `winbase::MARKPARITY`. -/
def MARKPARITY : Nat := 3
/-- `winbase::SPACEPARITY`. -/
def SPACEPARITY : Nat := 4
/-- `winbase::RTS_CONTROL_DISABLE`. -/
def RTS_CONTROL_DISABLE : Nat := 0
/-- `winbase::RTS_CONTROL_HANDSHAKE`. -/
def RTS_CONTROL_HANDSHAKE : Nat := 2
/-- `winbase::PURGE_TXABORT`. -/
def PURGE_TXABORT : Nat := 1
/-- `winbase::PURGE_RXABORT`. -/
def PURGE_RXABORT : Nat := 2
/-- `winbase::PURGE_TXCLEAR`. -/
def PURGE_TXCLEAR : Nat := 4
/-- `winbase::PURGE_RXCLEAR`. -/
def PURGE_RXCLEAR : Nat := 8

/-- `config::DataBits` (src/config.rs). -/
inductive DataBits
  | Five
  | Six
  | Seven
  | Eight
deriving DecidableEq, Repr

/-- `config::FlowControl` (src/config.rs). -/
inductive FlowControl
  | None
  | Software
  | Hardware
deriving DecidableEq, Repr

/-- `config::Parity` (src/config.rs). -/
inductive Parity
  | None
  | Odd
  | Even
  | Mark
  | Space
deriving DecidableEq, Repr

/-- `config::StopBits` (src/config.rs). -/
inductive StopBits
  | One
  | OnePointFive
  | Two
deriving DecidableEq, Repr

/-- `config::ClearBuffer` (cited by `ComPort::clear` in src/windows/com.rs). -/
inductive ClearBuffer
  | Input
  | Output
  | All
deriving DecidableEq, Repr

/-- `std::time::Duration`: `secs : u64`, `nanos : u32` with `nanos < 10^9`.
Well-formedness (`secs < 2^64`, `nanos < 10^9`) is carried as hypotheses. -/
structure Duration where
  secs : Nat
  nanos : Nat
deriving DecidableEq, Repr

/-- `Duration::as_millis`: `secs as u128 * 1000 + (nanos / 1_000_000) as u128`,
computed in `u128` (hence the `% 2^128`, faithful to the machine type). -/
def Duration.as_millis (d : Duration) : Nat :=
  (d.secs * 1000 + d.nanos / 1000000) % 2 ^ 128

/-- `builder::SerialPortBuilder` (src/builder.rs): the stored configuration.
The `OsString` port identifier is modelled by its character list. -/
structure SerialPortBuilder where
  port : List Char
  baud_rate : Nat
  data_bits : DataBits
  flow_control : FlowControl
  parity : Parity
  stop_bits : StopBits
  timeout : Duration
deriving DecidableEq, Repr

/-- The Windows device control block (`winbase::DCB`): the fields the crate
reads or writes.  `fOutxCtsFlow`, `fOutX`, `fInX` are 1-bit bitfields and
`fRtsControl` a 2-bit bitfield; all are modelled as `Nat`. -/
structure DCB where
  BaudRate : Nat
  ByteSize : Nat
  /-- the `StopBits` field of `winbase::DCB` (renamed to avoid shadowing). -/
  stopBitsF : Nat
  /-- the `Parity` field of `winbase::DCB` (renamed to avoid shadowing). -/
  parityF : Nat
  fOutxCtsFlow : Nat
  fRtsControl : Nat
  fOutX : Nat
  fInX : Nat
deriving DecidableEq, Repr

namespace DCB

/-- `WindowsDCB::baud_rate` (src/serialport/windows/dcb.rs): store the rate. -/
def baud_rate (dcb : DCB) (v : Nat) : DCB :=
  { dcb with BaudRate := v }

/-- `WindowsDCB::data_bits` (src/serialport/windows/dcb.rs): write `ByteSize`. -/
def data_bits (dcb : DCB) (v : DataBits) : DCB :=
  { dcb with ByteSize :=
      match v with
      | .Five => 5
      | .Six => 6
      | .Seven => 7
      | .Eight => 8 }

/-- `WindowsDCB::stop_bits` (src/serialport/windows/dcb.rs): write `StopBits`. -/
def stop_bits (dcb : DCB) (v : StopBits) : DCB :=
  { dcb with stopBitsF :=
      match v with
      | .One => ONESTOPBIT
      | .OnePointFive => ONE5STOPBITS
      | .Two => TWOSTOPBITS }

/-- `WindowsDCB::parity` (src/serialport/windows/dcb.rs): write `Parity`. -/
def parity (dcb : DCB) (v : Parity) : DCB :=
  { dcb with parityF :=
      match v with
      | .None => NOPARITY
      | .Odd => ODDPARITY
      | .Even => EVENPARITY
      | .Mark => MARKPARITY
      | .Space => SPACEPARITY }

/-- `WindowsDCB::flow_control` (src/serialport/windows/dcb.rs): write the
hardware-handshake and XON/XOFF flag groups. -/
def flow_control (dcb : DCB) (v : FlowControl) : DCB :=
  match v with
  | .None =>
      { dcb with fOutxCtsFlow := 0, fRtsControl := RTS_CONTROL_DISABLE,
                 fOutX := 0, fInX := 0 }
  | .Software =>
      { dcb with fOutxCtsFlow := 0, fRtsControl := RTS_CONTROL_DISABLE,
                 fOutX := 1, fInX := 1 }
  | .Hardware =>
      { dcb with fOutxCtsFlow := 1, fRtsControl := RTS_CONTROL_HANDSHAKE,
                 fOutX := 0, fInX := 0 }

/-- `WindowsDCB::update` (src/serialport/windows/dcb.rs): apply the whole
stored configuration to the control block, in source order. -/
def update (dcb : DCB) (b : SerialPortBuilder) : DCB :=
  ((((dcb.baud_rate b.baud_rate).data_bits b.data_bits).stop_bits
      b.stop_bits).parity b.parity).flow_control b.flow_control

end DCB

/-- The error kinds the crate produces (`std::io::ErrorKind` values used in
the source, plus `osError` for whatever `std::io::Error::last_os_error()`
carries — its concrete kind depends on the OS errno and is opaque here). -/
inductive ErrorKind
  | notConnected
  | invalidInput
  | alreadyExists
  | timedOut
  | invalidData
  | osError
deriving DecidableEq, Repr

/-- Flow-control read-back (`SerialPort::flow_control` in
src/serialport/windows/mod.rs lines 201–210; identically
`ComPort::flow_control` in src/windows/com.rs lines 199–209): the pure
flag-inspection logic applied to a fetched control block. -/
def flow_control_read (dcb : DCB) : FlowControl :=
  if dcb.fOutxCtsFlow ≠ 0 ∨ dcb.fRtsControl ≠ RTS_CONTROL_DISABLE then
    .Hardware
  else if dcb.fOutX ≠ 0 ∨ dcb.fInX ≠ 0 then
    .Software
  else
    .None

/-- Data-bits read-back (`SerialPort::data_bits`, src/serialport/windows/mod.rs
lines 190–199): match on the fetched `ByteSize`. -/
def data_bits_read (byteSize : Nat) : Except ErrorKind DataBits :=
  match byteSize with
  | 5 => .ok .Five
  | 6 => .ok .Six
  | 7 => .ok .Seven
  | 8 => .ok .Eight
  | _ => .error .invalidData

/-- Parity read-back (`SerialPort::parity`, src/serialport/windows/mod.rs
lines 212–222): match on the fetched `Parity` field. -/
def parity_read (p : Nat) : Except ErrorKind Parity :=
  if p = NOPARITY then .ok .None
  else if p = ODDPARITY then .ok .Odd
  else if p = EVENPARITY then .ok .Even
  else if p = MARKPARITY then .ok .Mark
  else if p = SPACEPARITY then .ok .Space
  else .error .invalidData

/-- Stop-bits read-back (`SerialPort::stop_bits`, src/serialport/windows/mod.rs
lines 224–232): match on the fetched `StopBits` field. -/
def stop_bits_read (s : Nat) : Except ErrorKind StopBits :=
  if s = ONESTOPBIT then .ok .One
  else if s = ONE5STOPBITS then .ok .OnePointFive
  else if s = TWOSTOPBITS then .ok .Two
  else .error .invalidData

/-- The character sequence `\\.\` — the Windows device-namespace marker
(`PORT_PREFIX` in src/serialport/windows/mod.rs). -/
def portMarker : List Char := ['\\', '\\', '.', '\\']

/-- `prefix_port` (src/serialport/windows/mod.rs lines 23–31; the same
normalization appears inline in `ComPort::open`, src/windows/com.rs lines
123–127): prepend `\\.\` unless the identifier already starts with it. -/
def prefix_port (port : List Char) : List Char :=
  if ¬ (portMarker.isPrefixOf port) then
    portMarker ++ port
  else
    port

/-- `winbase::COMMTIMEOUTS`, the structure handed to `SetCommTimeouts`. -/
structure COMMTIMEOUTS where
  ReadIntervalTimeout : Nat
  ReadTotalTimeoutMultiplier : Nat
  ReadTotalTimeoutConstant : Nat
  WriteTotalTimeoutMultiplier : Nat
  WriteTotalTimeoutConstant : Nat
deriving DecidableEq, Repr

/-- The clamped millisecond count of `SerialPort::reconfigure`
(src/serialport/windows/mod.rs lines 105–106; identically
`ComPort::reconfigure`, src/windows/com.rs lines 94–95):
`u128::min(timeout.as_millis(), MAXDWORD as u128 - 1) as DWORD`.
The trailing `% 2^32` embeds the `as DWORD` cast. -/
def timeout_millis (t : Duration) : Nat :=
  min t.as_millis (MAXDWORD - 1) % 2 ^ 32

/-- The `COMMTIMEOUTS` value built by `reconfigure`
(src/serialport/windows/mod.rs lines 108–114). -/
def commTimeouts (t : Duration) : COMMTIMEOUTS :=
  { ReadIntervalTimeout := MAXDWORD
    ReadTotalTimeoutMultiplier := 0
    ReadTotalTimeoutConstant := timeout_millis t
    WriteTotalTimeoutMultiplier := 0
    WriteTotalTimeoutConstant := timeout_millis t }

/-- Oracle for the winapi calls the crate makes.  Each field gives the
outcome the OS would produce for one call, as a function of the handle
argument and of the value passed; `none` / `false` model a failed call
(after which the crate reads `last_os_error()`, modelled as
`ErrorKind.osError`). -/
structure OsEnv where
  /-- `CreateFileW` on a path: `some h` a fresh valid handle, `none` =
  `INVALID_HANDLE_VALUE`. -/
  createFile : List Char → Option Nat
  /-- `GetCommState(handle)`: the fetched control block, or failure. -/
  getCommState : Handle → Option DCB
  /-- `SetCommState(handle, dcb)`: did the commit succeed? -/
  setCommState : Handle → DCB → Bool
  /-- `SetCommTimeouts(handle, timeouts)`: did the call succeed? -/
  setCommTimeouts : Handle → COMMTIMEOUTS → Bool
  /-- `CloseHandle(handle)`: did the release succeed? -/
  closeHandle : Handle → Bool
  /-- `ReadFile(handle, len)`: `some n` = success with `n` bytes transferred,
  `none` = failure. -/
  readFile : Handle → Nat → Option Nat
  /-- `WriteFile(handle, len)`: `some n` = success with `n` bytes written. -/
  writeFile : Handle → Nat → Option Nat
  /-- `FlushFileBuffers(handle)`. -/
  flushFileBuffers : Handle → Bool
  /-- `ClearCommError(handle)`: `some (cbInQue, cbOutQue)` on success. -/
  clearCommError : Handle → Option (Nat × Nat)
  /-- `PurgeComm(handle, flags)`. -/
  purgeComm : Handle → Nat → Bool

/-- The port state (`SerialPort` in src/serialport/windows/mod.rs lines 33–37;
identically `ComPort` in src/windows/com.rs lines 29–33). -/
structure SerialPort where
  is_open : Bool
  handle : Handle
  builder : SerialPortBuilder
deriving DecidableEq, Repr

namespace SerialPort

/-- `SerialPort::close` (src/serialport/windows/mod.rs lines 166–179;
identically `ComPort::close`, src/windows/com.rs lines 157–170).  Note the
early return when `is_open` is false, and that a failed `CloseHandle`
propagates before `handle` and `is_open` are cleared. -/
def close (env : OsEnv) (s : SerialPort) : SerialPort × Except ErrorKind Unit :=
  if ¬ s.is_open then
    (s, .ok ())
  else
    match s.handle with
    | some h =>
        if env.closeHandle (some h) then
          ({ s with handle := none, is_open := false }, .ok ())
        else
          (s, .error .osError)
    | none =>
        ({ s with is_open := false }, .ok ())

/-- `SerialPort::reconfigure` (src/serialport/windows/mod.rs lines 88–117;
identically `ComPort::reconfigure`, src/windows/com.rs lines 77–106).
Fetch the control block, apply the whole stored configuration, commit it —
on commit failure run the fail-safe `let _ = self.close()` — then set the
timeout constants.  A `GetCommState` or `SetCommTimeouts` failure
propagates via `?` with no close. -/
def reconfigure (env : OsEnv) (s : SerialPort) :
    SerialPort × Except ErrorKind Unit :=
  if s.handle = none then
    (s, .error .notConnected)
  else
    match env.getCommState s.handle with
    | none => (s, .error .osError)
    | some dcb0 =>
        if env.setCommState s.handle (dcb0.update s.builder) then
          if env.setCommTimeouts s.handle (commTimeouts s.builder.timeout) then
            (s, .ok ())
          else
            (s, .error .osError)
        else
          ((close env s).1, .error .osError)

/-- `SerialPort::open` (src/serialport/windows/mod.rs lines 123–164;
identically `ComPort::open`, src/windows/com.rs lines 114–155).  The
acquired handle is stored before `reconfigure()?`, and `is_open` is set
only after it succeeds. -/
def openPort (env : OsEnv) (s : SerialPort) :
    SerialPort × Except ErrorKind Unit :=
  if s.builder.port.isEmpty then
    (s, .error .invalidInput)
  else if s.is_open then
    (s, .error .alreadyExists)
  else
    match env.createFile (prefix_port s.builder.port) with
    | none => (s, .error .osError)
    | some h =>
        let s1 := { s with handle := some h }
        match reconfigure env s1 with
        | (s2, .error e) => (s2, .error e)
        | (s2, .ok _) => ({ s2 with is_open := true }, .ok ())

/-- `SerialPort::set_baud_rate` (src/serialport/windows/mod.rs lines 242–250):
store the new value, then re-apply the entire configuration if open. -/
def set_baud_rate (env : OsEnv) (s : SerialPort) (v : Nat) :
    SerialPort × Except ErrorKind Unit :=
  let s1 := { s with builder := { s.builder with baud_rate := v } }
  if s1.is_open then reconfigure env s1 else (s1, .ok ())

/-- `SerialPort::set_data_bits` (src/serialport/windows/mod.rs lines 252–260). -/
def set_data_bits (env : OsEnv) (s : SerialPort) (v : DataBits) :
    SerialPort × Except ErrorKind Unit :=
  let s1 := { s with builder := { s.builder with data_bits := v } }
  if s1.is_open then reconfigure env s1 else (s1, .ok ())

/-- `SerialPort::set_flow_control` (src/serialport/windows/mod.rs lines 262–270). -/
def set_flow_control (env : OsEnv) (s : SerialPort) (v : FlowControl) :
    SerialPort × Except ErrorKind Unit :=
  let s1 := { s with builder := { s.builder with flow_control := v } }
  if s1.is_open then reconfigure env s1 else (s1, .ok ())

/-- `SerialPort::set_parity` (src/serialport/windows/mod.rs lines 272–280). -/
def set_parity (env : OsEnv) (s : SerialPort) (v : Parity) :
    SerialPort × Except ErrorKind Unit :=
  let s1 := { s with builder := { s.builder with parity := v } }
  if s1.is_open then reconfigure env s1 else (s1, .ok ())

/-- `SerialPort::set_stop_bits` (src/serialport/windows/mod.rs lines 282–290). -/
def set_stop_bits (env : OsEnv) (s : SerialPort) (v : StopBits) :
    SerialPort × Except ErrorKind Unit :=
  let s1 := { s with builder := { s.builder with stop_bits := v } }
  if s1.is_open then reconfigure env s1 else (s1, .ok ())

/-- `SerialPort::set_timeout` (src/serialport/windows/mod.rs lines 292–300). -/
def set_timeout (env : OsEnv) (s : SerialPort) (v : Duration) :
    SerialPort × Except ErrorKind Unit :=
  let s1 := { s with builder := { s.builder with timeout := v } }
  if s1.is_open then reconfigure env s1 else (s1, .ok ())

/-- The hidden identifier mutator (`SerialPort::set_port` in
src/serialport/windows/mod.rs lines 238–240; `Private::set_raw_path` for
`ComPort`, src/windows/com.rs lines 339–344): rewrite the stored id only. -/
def set_raw_port (s : SerialPort) (path : List Char) : SerialPort :=
  { s with builder := { s.builder with port := path } }

/-- The public identifier setter (`SerialPort::set_port` wrapper,
src/serialport/mod.rs lines 362–375; identically the provided
`SerialPort::set_path`, src/lib.rs lines 677–690): close if open, rewrite
the stored id, reopen if it had been open; `?` propagates either step's
error. -/
def set_port (env : OsEnv) (s : SerialPort) (path : List Char) :
    SerialPort × Except ErrorKind Unit :=
  let was_open := s.is_open
  if was_open then
    match close env s with
    | (s1, .error e) => (s1, .error e)
    | (s1, .ok _) =>
        let s2 := set_raw_port s1 path
        match openPort env s2 with
        | (s3, .error e) => (s3, .error e)
        | (s3, .ok _) => (s3, .ok ())
  else
    (set_raw_port s path, .ok ())

/-- `impl Read for SerialPort` (src/serialport/windows/mod.rs lines 303–325;
identically src/windows/com.rs lines 348–371).  `bufLen` is `buf.len()`;
the `as DWORD` cast on it is embedded as `% 2^32`. -/
def read (env : OsEnv) (s : SerialPort) (bufLen : Nat) :
    SerialPort × Except ErrorKind Nat :=
  if ¬ s.is_open then
    (s, .error .notConnected)
  else
    match env.readFile s.handle (bufLen % 2 ^ 32) with
    | none => (s, .error .osError)
    | some 0 => (s, .error .timedOut)
    | some n => (s, .ok n)

/-- `impl Write for SerialPort`, `write` (src/serialport/windows/mod.rs lines
329–347; identically src/windows/com.rs lines 374–392). -/
def write (env : OsEnv) (s : SerialPort) (bufLen : Nat) :
    SerialPort × Except ErrorKind Nat :=
  if ¬ s.is_open then
    (s, .error .notConnected)
  else
    match env.writeFile s.handle (bufLen % 2 ^ 32) with
    | none => (s, .error .osError)
    | some n => (s, .ok n)

/-- `impl Write for SerialPort`, `flush` (src/serialport/windows/mod.rs lines
349–357; identically src/windows/com.rs lines 394–402). -/
def flush (env : OsEnv) (s : SerialPort) : SerialPort × Except ErrorKind Unit :=
  if ¬ s.is_open then
    (s, .error .notConnected)
  else if env.flushFileBuffers s.handle then
    (s, .ok ())
  else
    (s, .error .osError)

/-- `ComPort::bytes_to_read` (src/windows/com.rs lines 237–248): query
`ClearCommError` on the stored handle — with no `is_open` guard. -/
def bytes_to_read (env : OsEnv) (s : SerialPort) : Except ErrorKind Nat :=
  match env.clearCommError s.handle with
  | none => .error .osError
  | some comstat => .ok comstat.1

/-- `ComPort::bytes_to_write` (src/windows/com.rs lines 250–261). -/
def bytes_to_write (env : OsEnv) (s : SerialPort) : Except ErrorKind Nat :=
  match env.clearCommError s.handle with
  | none => .error .osError
  | some comstat => .ok comstat.2

/-- The purge flags chosen by `ComPort::clear`
(src/windows/com.rs lines 324–333). -/
def clearFlags (sel : ClearBuffer) : Nat :=
  match sel with
  | .Input => PURGE_RXABORT ||| PURGE_RXCLEAR
  | .Output => PURGE_TXABORT ||| PURGE_TXCLEAR
  | .All => PURGE_RXABORT ||| PURGE_RXCLEAR ||| PURGE_TXABORT ||| PURGE_TXCLEAR

/-- `ComPort::clear` (src/windows/com.rs lines 323–336): `PurgeComm` on the
stored handle — with no `is_open` guard; takes `&self`, so no state change. -/
def clear (env : OsEnv) (s : SerialPort) (sel : ClearBuffer) :
    Except ErrorKind Unit :=
  if env.purgeComm s.handle (clearFlags sel) then .ok () else .error .osError

end SerialPort

/-! ## Sample values used by concrete witnesses and counterexamples -/

/-- A sample fetched control block (all fields zero). -/
def dcbZero : DCB :=
  { BaudRate := 0, ByteSize := 0, stopBitsF := 0, parityF := 0,
    fOutxCtsFlow := 0, fRtsControl := 0, fOutX := 0, fInX := 0 }

/-- A control block with a hardware-handshake flag and both XON/XOFF flags
set simultaneously. -/
def dcbBothFlags : DCB :=
  { BaudRate := 0, ByteSize := 8, stopBitsF := 0, parityF := 0,
    fOutxCtsFlow := 1, fRtsControl := RTS_CONTROL_HANDSHAKE,
    fOutX := 1, fInX := 1 }

/-- A sample stored configuration bound to device `COM1`. -/
def bCOM1 : SerialPortBuilder :=
  { port := ['C', 'O', 'M', '1'], baud_rate := 9600, data_bits := .Eight,
    flow_control := .None, parity := .None, stop_bits := .One,
    timeout := { secs := 1, nanos := 0 } }

/-- A closed port bound to `COM1`. -/
def sClosed : SerialPort :=
  { is_open := false, handle := none, builder := bCOM1 }

/-- An open port bound to `COM1` holding OS handle `7`. -/
def sOpen7 : SerialPort :=
  { is_open := true, handle := some 7, builder := bCOM1 }

/-! ## Helper lemmas -/

lemma close_preserves_builder (env : OsEnv) (s : SerialPort) :
    ((SerialPort.close env s).1).builder = s.builder := by
  unfold SerialPort.close
  split
  · rfl
  · split
    · split <;> rfl
    · rfl

lemma reconfigure_preserves_builder (env : OsEnv) (s : SerialPort) :
    ((SerialPort.reconfigure env s).1).builder = s.builder := by
  unfold SerialPort.reconfigure
  split
  · rfl
  · split
    · rfl
    · split
      · split <;> rfl
      · simpa using close_preserves_builder env s

lemma openPort_preserves_builder (env : OsEnv) (s : SerialPort) :
    ((SerialPort.openPort env s).1).builder = s.builder := by
  unfold SerialPort.openPort
  split
  · rfl
  · split
    · rfl
    · split
      · rfl
      · rename_i h heq
        dsimp only
        have hb := reconfigure_preserves_builder env { s with handle := some h }
        rcases hr : SerialPort.reconfigure env { s with handle := some h } with ⟨s2, r⟩
        rw [hr] at hb
        cases r
        · simpa using hb
        · simpa using hb

/-! ## Claims about the configuration translator -/

/-- C4: writing any `FlowControl` value to the control block (`None` clears
both flag groups, `Software` sets XON/XOFF only, `Hardware` sets RTS/CTS
handshake only) and reading the flow control back yields the same value. -/
theorem flow_control_roundtrip (dcb : DCB) (v : FlowControl) :
    flow_control_read (dcb.flow_control v) = v := by
  cases v <;>
    simp [DCB.flow_control, flow_control_read,
      RTS_CONTROL_DISABLE, RTS_CONTROL_HANDSHAKE]

/-- C5: flow-control read-back follows the priority Hardware > Software >
None — any hardware-handshake flag (CTS output flow, or RTS control other
than disabled) reports `Hardware` regardless of the XON/XOFF flags; with
hardware flags clear, either XON/XOFF flag reports `Software`; otherwise
`None`. -/
theorem flow_control_read_priority (dcb : DCB) :
    ((dcb.fOutxCtsFlow ≠ 0 ∨ dcb.fRtsControl ≠ RTS_CONTROL_DISABLE) →
      flow_control_read dcb = .Hardware)
    ∧ (dcb.fOutxCtsFlow = 0 → dcb.fRtsControl = RTS_CONTROL_DISABLE →
      (dcb.fOutX ≠ 0 ∨ dcb.fInX ≠ 0) → flow_control_read dcb = .Software)
    ∧ (dcb.fOutxCtsFlow = 0 → dcb.fRtsControl = RTS_CONTROL_DISABLE →
      dcb.fOutX = 0 → dcb.fInX = 0 → flow_control_read dcb = .None) := by
  refine ⟨fun hw => ?_, fun h1 h2 hsw => ?_, fun h1 h2 h3 h4 => ?_⟩ <;>
    simp_all [flow_control_read]

/-- Witness for C5 at a control block with hardware and software flags set
simultaneously: read-back reports `Hardware`. -/
theorem flow_control_read_priority_witness :
    flow_control_read dcbBothFlags = .Hardware :=
  (flow_control_read_priority dcbBothFlags).1
    (by simp [dcbBothFlags, RTS_CONTROL_DISABLE, RTS_CONTROL_HANDSHAKE])

/-- C9: the data-bits, stop-bits, and parity translations are invertible on
their enumerated domains — writing any `DataBits`, `StopBits`, or `Parity`
value to the control block and reading it back yields the same value — and
reading back any raw control-block value outside the mapped set fails with
`InvalidData`. -/
theorem line_control_translation_invertible :
    (∀ (dcb : DCB) (v : DataBits),
      data_bits_read ((dcb.data_bits v).ByteSize) = .ok v)
    ∧ (∀ (dcb : DCB) (v : StopBits),
      stop_bits_read ((dcb.stop_bits v).stopBitsF) = .ok v)
    ∧ (∀ (dcb : DCB) (v : Parity),
      parity_read ((dcb.parity v).parityF) = .ok v)
    ∧ (∀ n : Nat, n ≠ 5 → n ≠ 6 → n ≠ 7 → n ≠ 8 →
      data_bits_read n = .error .invalidData)
    ∧ (∀ n : Nat, n ≠ ONESTOPBIT → n ≠ ONE5STOPBITS → n ≠ TWOSTOPBITS →
      stop_bits_read n = .error .invalidData)
    ∧ (∀ n : Nat, n ≠ NOPARITY → n ≠ ODDPARITY → n ≠ EVENPARITY →
      n ≠ MARKPARITY → n ≠ SPACEPARITY →
      parity_read n = .error .invalidData) := by
  refine ⟨fun dcb v => ?_, fun dcb v => ?_, fun dcb v => ?_, ?_, ?_, ?_⟩
  · cases v <;> rfl
  · cases v <;> rfl
  · cases v <;> rfl
  · intro n h5 h6 h7 h8
    unfold data_bits_read
    split <;> simp_all
  · intro n h1 h2 h3
    simp [stop_bits_read, h1, h2, h3, ONESTOPBIT, ONE5STOPBITS, TWOSTOPBITS] at *
    simp [stop_bits_read, h1, h2, h3]
  · intro n h1 h2 h3 h4 h5
    simp [parity_read, NOPARITY, ODDPARITY, EVENPARITY, MARKPARITY,
      SPACEPARITY] at *
    simp [parity_read, h1, h2, h3, h4, h5]

/-- Witness for C9 at concrete out-of-range raw values: byte size 9, stop
bits 3 and parity 5 all read back as `InvalidData`. -/
theorem line_control_translation_invertible_witness :
    data_bits_read 9 = .error .invalidData
    ∧ stop_bits_read 3 = .error .invalidData
    ∧ parity_read 5 = .error .invalidData :=
  ⟨line_control_translation_invertible.2.2.2.1 9
      (by decide) (by decide) (by decide) (by decide),
    line_control_translation_invertible.2.2.2.2.1 3
      (by decide) (by decide) (by decide),
    line_control_translation_invertible.2.2.2.2.2 5
      (by decide) (by decide) (by decide) (by decide) (by decide)⟩

/-- The device-namespace marker is a prefix of anything it is prepended to. -/
lemma marker_isPrefixOf_append (s : List Char) :
    portMarker.isPrefixOf (portMarker ++ s) = true := by
  simp [portMarker, List.isPrefixOf]

/-- C10: the path handed to the OS open call is the identifier prefixed
with `\\.\` when it does not already start with it, and exactly the
identifier when it does; the normalization is idempotent and its result
always begins with `\\.\`. -/
theorem prefix_port_normalization (s : List Char) :
    (portMarker.isPrefixOf s = true → prefix_port s = s)
    ∧ (portMarker.isPrefixOf s = false → prefix_port s = portMarker ++ s)
    ∧ prefix_port (prefix_port s) = prefix_port s
    ∧ portMarker.isPrefixOf (prefix_port s) = true := by
  by_cases h : portMarker.isPrefixOf s
  · refine ⟨fun _ => ?_, fun hf => ?_, ?_, ?_⟩ <;>
      simp [prefix_port, h] at *
  · refine ⟨fun ht => ?_, fun _ => ?_, ?_, ?_⟩
    · simp [h] at ht
    · simp [prefix_port, h]
    · simp [prefix_port, h, marker_isPrefixOf_append]
    · simp [prefix_port, h, marker_isPrefixOf_append]

/-- Witness for C10 at the identifier `COM1` (not yet prefixed) and at its
normalized form (already prefixed): normalizing `COM1` prepends the marker,
and normalizing the result changes nothing. -/
theorem prefix_port_normalization_witness :
    prefix_port ['C', 'O', 'M', '1'] = portMarker ++ ['C', 'O', 'M', '1']
    ∧ prefix_port (prefix_port ['C', 'O', 'M', '1']) =
        prefix_port ['C', 'O', 'M', '1'] :=
  ⟨(prefix_port_normalization ['C', 'O', 'M', '1']).2.1 (by decide),
    (prefix_port_normalization ['C', 'O', 'M', '1']).2.2.1⟩

/-- C6: for every positive timeout duration, the translated `COMMTIMEOUTS`
sets both the read-total and write-total constants to the duration's
millisecond count clamped at the platform maximum (`MAXDWORD - 1`;
`MAXDWORD` itself is the reserved immediate-return sentinel), and the
computed constant never overflows or wraps (the `u128` sum and the
`as DWORD` cast are both value-preserving).  The final conjunct anchors the
translation in `reconfigure`: after a successful control-block commit, the
call succeeds exactly when the OS accepts this `COMMTIMEOUTS` value. -/
theorem timeout_translation_clamped (t : Duration)
    (hsecs : t.secs < 2 ^ 64) (hnanos : t.nanos < 10 ^ 9)
    (_hpos : 0 < t.secs ∨ 0 < t.nanos) :
    (commTimeouts t).ReadTotalTimeoutConstant
        = min (t.secs * 1000 + t.nanos / 1000000) (MAXDWORD - 1)
    ∧ (commTimeouts t).WriteTotalTimeoutConstant
        = (commTimeouts t).ReadTotalTimeoutConstant
    ∧ (commTimeouts t).ReadTotalTimeoutConstant < 2 ^ 32
    ∧ (∀ (env : OsEnv) (s : SerialPort) (h : Nat) (dcb0 : DCB),
        s.handle = some h → s.builder.timeout = t →
        env.getCommState (some h) = some dcb0 →
        env.setCommState (some h) (dcb0.update s.builder) = true →
        ((SerialPort.reconfigure env s).2 = .ok () ↔
          env.setCommTimeouts (some h) (commTimeouts t) = true)) := by
  have hq : t.nanos / 1000000 < 1000 := by
    have hlt : t.nanos < 1000 * 1000000 := by omega
    exact (Nat.div_lt_iff_lt_mul (by norm_num)).2 hlt
  have hsecs' : t.secs < 18446744073709551616 := by
    have he : (2 : Nat) ^ 64 = 18446744073709551616 := by norm_num
    omega
  have hsum : t.secs * 1000 + t.nanos / 1000000
      < 340282366920938463463374607431768211456 := by omega
  have hmillis : t.as_millis = t.secs * 1000 + t.nanos / 1000000 := by
    unfold Duration.as_millis
    have he : (2 : Nat) ^ 128 = 340282366920938463463374607431768211456 := by
      norm_num
    rw [he]
    exact Nat.mod_eq_of_lt hsum
  have hlt32 : min t.as_millis (MAXDWORD - 1) < 2 ^ 32 := by
    have h1 : min t.as_millis (MAXDWORD - 1) ≤ MAXDWORD - 1 :=
      min_le_right _ _
    have h2 : MAXDWORD - 1 < 2 ^ 32 := by norm_num [MAXDWORD]
    omega
  have htm : timeout_millis t = min t.as_millis (MAXDWORD - 1) := by
    unfold timeout_millis
    exact Nat.mod_eq_of_lt hlt32
  refine ⟨?_, rfl, ?_, ?_⟩
  · show timeout_millis t = _
    rw [htm, hmillis]
  · show timeout_millis t < 2 ^ 32
    rw [htm]
    exact hlt32
  · intro env s h dcb0 hh ht hget hset
    cases hst : env.setCommTimeouts (some h) (commTimeouts s.builder.timeout) <;>
      rw [ht] at hst <;>
      simp [SerialPort.reconfigure, hh, hget, hset, ht, hst]

/-- Witness for C6 at a one-second timeout (constant 1000 ms, unclamped) and
at a timeout whose millisecond count exceeds the platform maximum
(clamped to `MAXDWORD - 1`). -/
theorem timeout_translation_clamped_witness :
    (commTimeouts { secs := 1, nanos := 0 }).ReadTotalTimeoutConstant = 1000
    ∧ (commTimeouts { secs := 1, nanos := 0 }).WriteTotalTimeoutConstant = 1000
    ∧ (commTimeouts { secs := 9223372036854775808, nanos := 0
        }).ReadTotalTimeoutConstant = 4294967294 := by
  have H1 := timeout_translation_clamped { secs := 1, nanos := 0 }
    (by norm_num) (by norm_num) (Or.inl (by norm_num))
  have H2 := timeout_translation_clamped { secs := 9223372036854775808, nanos := 0 }
    (by norm_num) (by norm_num) (Or.inl (by norm_num))
  refine ⟨?_, ?_, ?_⟩
  · rw [H1.1]
    norm_num [MAXDWORD]
  · rw [H1.2.1, H1.1]
    norm_num [MAXDWORD]
  · rw [H2.1]
    norm_num [MAXDWORD]

/-! ## Concrete OS environments for witnesses and counterexamples -/

/-- A baseline environment in which every OS call fails. -/
def envBase : OsEnv :=
  { createFile := fun _ => none
    getCommState := fun _ => none
    setCommState := fun _ _ => false
    setCommTimeouts := fun _ _ => false
    closeHandle := fun _ => false
    readFile := fun _ _ => none
    writeFile := fun _ _ => none
    flushFileBuffers := fun _ => false
    clearCommError := fun _ => none
    purgeComm := fun _ _ => false }

/-- Opening succeeds (handle `7`), `GetCommState` succeeds, but the
`SetCommState` commit fails; `CloseHandle` would succeed. -/
def envCommitFail : OsEnv :=
  { envBase with
    createFile := fun _ => some 7
    getCommState := fun _ => some dcbZero
    setCommTimeouts := fun _ _ => true
    closeHandle := fun _ => true }

/-- Opening and the control-block commit succeed, but `SetCommTimeouts`
fails; `CloseHandle` would succeed. -/
def envTimeoutsFail : OsEnv :=
  { envBase with
    createFile := fun _ => some 7
    getCommState := fun _ => some dcbZero
    setCommState := fun _ _ => true
    closeHandle := fun _ => true }

/-- The device does not exist (`CreateFileW` fails for every path); every
other call would succeed. -/
def envNoDevice : OsEnv :=
  { envBase with
    getCommState := fun _ => some dcbZero
    setCommState := fun _ _ => true
    setCommTimeouts := fun _ _ => true
    closeHandle := fun _ => true }

/-- A read completes successfully with zero bytes transferred. -/
def envReadZero : OsEnv :=
  { envBase with readFile := fun _ _ => some 0 }

/-! ## Reconfiguration case lemmas -/

/-- When the `SetCommState` commit fails on an open port, `reconfigure`
runs the fail-safe close (which releases the handle) and reports the OS
error. -/
lemma reconfigure_commit_fail (env : OsEnv) (s : SerialPort) (h : Nat)
    (hopen : s.is_open = true) (hh : s.handle = some h)
    (hget : ∃ d0, env.getCommState (some h) = some d0)
    (hset : ∀ d, env.setCommState (some h) d = false)
    (hclose : env.closeHandle (some h) = true) :
    SerialPort.reconfigure env s =
      ({ s with handle := none, is_open := false }, .error .osError) := by
  obtain ⟨d0, hget⟩ := hget
  simp [SerialPort.reconfigure, SerialPort.close, hh, hget, hset, hopen,
    hclose]

/-- When the commit succeeds but `SetCommTimeouts` fails, `reconfigure`
reports the OS error without closing anything. -/
lemma reconfigure_timeouts_fail (env : OsEnv) (s : SerialPort) (h : Nat)
    (hh : s.handle = some h)
    (hget : ∃ d0, env.getCommState (some h) = some d0)
    (hset : ∀ d, env.setCommState (some h) d = true)
    (htm : ∀ c, env.setCommTimeouts (some h) c = false) :
    SerialPort.reconfigure env s = (s, .error .osError) := by
  obtain ⟨d0, hget⟩ := hget
  simp [SerialPort.reconfigure, hh, hget, hset, htm]

/-- When every OS call involved succeeds, `reconfigure` succeeds and leaves
the state unchanged. -/
lemma reconfigure_all_ok (env : OsEnv) (s : SerialPort) (h : Nat)
    (hh : s.handle = some h)
    (hget : ∃ d0, env.getCommState (some h) = some d0)
    (hset : ∀ d, env.setCommState (some h) d = true)
    (htm : ∀ c, env.setCommTimeouts (some h) c = true) :
    SerialPort.reconfigure env s = (s, .ok ()) := by
  obtain ⟨d0, hget⟩ := hget
  simp [SerialPort.reconfigure, hh, hget, hset, htm]

/-- C1 (evaluation at the failing input): `open()` on a closed port bound
to `COM1`, in an environment where `CreateFileW` succeeds with handle `7`
and `GetCommState` succeeds but the `SetCommState` commit fails, returns
the OS error and leaves `is_open() == false` — but the acquired handle
remains stored: the fail-safe `close()` inside `reconfigure` no-ops
because `is_open` has not been set yet, so the handle is never released
(not even by a later `close()`), contradicting the claim that the handle
is released with no valid handle retained. -/
theorem open_failed_reconfigure_retains_handle :
    (SerialPort.openPort envCommitFail sClosed).2 = .error .osError
    ∧ ((SerialPort.openPort envCommitFail sClosed).1).is_open = false
    ∧ ((SerialPort.openPort envCommitFail sClosed).1).handle = some 7
    ∧ SerialPort.close envCommitFail (SerialPort.openPort envCommitFail sClosed).1
        = ((SerialPort.openPort envCommitFail sClosed).1, .ok ()) :=
  ⟨rfl, rfl, rfl, rfl⟩

/-- C2 (counterexample): on an open port, `set_baud_rate` in an environment
where the control-block commit succeeds but `SetCommTimeouts` fails returns
the error while the port stays open (`is_open()` remains true), refuting
"whenever that re-application fails, the port force-closes". -/
theorem set_field_failure_leaves_port_open_cex :
    (SerialPort.set_baud_rate envTimeoutsFail sOpen7 115200).2
        = .error .osError
    ∧ ((SerialPort.set_baud_rate envTimeoutsFail sOpen7 115200).1).is_open
        = true :=
  ⟨rfl, rfl⟩

/-- C2 (amended): every configuration setter on an open port stores the new
value and re-applies the entire configuration; the stored configuration
retains the newly requested value on every outcome.  When `GetCommState`
fails, the error is returned while the port remains open.  When the
control-block commit (`SetCommState`) fails and the OS handle close
succeeds, the port force-closes and the error is returned.  When the
commit succeeds but setting the timeouts fails, the error is returned but
the port REMAINS OPEN; when everything succeeds the setter returns success
with the port still open. -/
theorem set_field_reapply_amended (env : OsEnv) (s : SerialPort) (h : Nat)
    (hopen : s.is_open = true) (hh : s.handle = some h) :
    (env.getCommState (some h) = none →
      (∀ v, SerialPort.set_baud_rate env s v =
        ({ s with builder := { s.builder with baud_rate := v } },
          .error .osError))
      ∧ (∀ v, SerialPort.set_data_bits env s v =
        ({ s with builder := { s.builder with data_bits := v } },
          .error .osError))
      ∧ (∀ v, SerialPort.set_parity env s v =
        ({ s with builder := { s.builder with parity := v } },
          .error .osError))
      ∧ (∀ v, SerialPort.set_stop_bits env s v =
        ({ s with builder := { s.builder with stop_bits := v } },
          .error .osError))
      ∧ (∀ v, SerialPort.set_flow_control env s v =
        ({ s with builder := { s.builder with flow_control := v } },
          .error .osError))
      ∧ (∀ v, SerialPort.set_timeout env s v =
        ({ s with builder := { s.builder with timeout := v } },
          .error .osError)))
    ∧ ((∃ d0, env.getCommState (some h) = some d0) →
      (∀ d, env.setCommState (some h) d = false) →
      env.closeHandle (some h) = true →
      (∀ v, SerialPort.set_baud_rate env s v =
        ({ s with
            builder := { s.builder with baud_rate := v },
            handle := none, is_open := false }, .error .osError))
      ∧ (∀ v, SerialPort.set_data_bits env s v =
        ({ s with
            builder := { s.builder with data_bits := v },
            handle := none, is_open := false }, .error .osError))
      ∧ (∀ v, SerialPort.set_parity env s v =
        ({ s with
            builder := { s.builder with parity := v },
            handle := none, is_open := false }, .error .osError))
      ∧ (∀ v, SerialPort.set_stop_bits env s v =
        ({ s with
            builder := { s.builder with stop_bits := v },
            handle := none, is_open := false }, .error .osError))
      ∧ (∀ v, SerialPort.set_flow_control env s v =
        ({ s with
            builder := { s.builder with flow_control := v },
            handle := none, is_open := false }, .error .osError))
      ∧ (∀ v, SerialPort.set_timeout env s v =
        ({ s with
            builder := { s.builder with timeout := v },
            handle := none, is_open := false }, .error .osError)))
    ∧ ((∃ d0, env.getCommState (some h) = some d0) →
      (∀ d, env.setCommState (some h) d = true) →
      (∀ c, env.setCommTimeouts (some h) c = false) →
      (∀ v, SerialPort.set_baud_rate env s v =
        ({ s with builder := { s.builder with baud_rate := v } },
          .error .osError))
      ∧ (∀ v, SerialPort.set_data_bits env s v =
        ({ s with builder := { s.builder with data_bits := v } },
          .error .osError))
      ∧ (∀ v, SerialPort.set_parity env s v =
        ({ s with builder := { s.builder with parity := v } },
          .error .osError))
      ∧ (∀ v, SerialPort.set_stop_bits env s v =
        ({ s with builder := { s.builder with stop_bits := v } },
          .error .osError))
      ∧ (∀ v, SerialPort.set_flow_control env s v =
        ({ s with builder := { s.builder with flow_control := v } },
          .error .osError))
      ∧ (∀ v, SerialPort.set_timeout env s v =
        ({ s with builder := { s.builder with timeout := v } },
          .error .osError)))
    ∧ ((∃ d0, env.getCommState (some h) = some d0) →
      (∀ d, env.setCommState (some h) d = true) →
      (∀ c, env.setCommTimeouts (some h) c = true) →
      (∀ v, SerialPort.set_baud_rate env s v =
        ({ s with builder := { s.builder with baud_rate := v } }, .ok ()))
      ∧ (∀ v, SerialPort.set_data_bits env s v =
        ({ s with builder := { s.builder with data_bits := v } }, .ok ()))
      ∧ (∀ v, SerialPort.set_parity env s v =
        ({ s with builder := { s.builder with parity := v } }, .ok ()))
      ∧ (∀ v, SerialPort.set_stop_bits env s v =
        ({ s with builder := { s.builder with stop_bits := v } }, .ok ()))
      ∧ (∀ v, SerialPort.set_flow_control env s v =
        ({ s with builder := { s.builder with flow_control := v } }, .ok ()))
      ∧ (∀ v, SerialPort.set_timeout env s v =
        ({ s with builder := { s.builder with timeout := v } }, .ok ()))) := by
  refine ⟨fun hgn => ?_, fun hget hset hclose => ?_, fun hget hset htm => ?_,
    fun hget hset htm => ?_⟩
  · refine ⟨fun v => ?_, fun v => ?_, fun v => ?_, fun v => ?_, fun v => ?_,
      fun v => ?_⟩ <;>
    simp [SerialPort.set_baud_rate, SerialPort.set_data_bits,
      SerialPort.set_parity, SerialPort.set_stop_bits,
      SerialPort.set_flow_control, SerialPort.set_timeout,
      SerialPort.reconfigure, SerialPort.close, hopen, hh, hgn]
  all_goals
    obtain ⟨d0, hget⟩ := hget
  all_goals
    refine ⟨fun v => ?_, fun v => ?_, fun v => ?_, fun v => ?_, fun v => ?_,
      fun v => ?_⟩ <;>
    simp [SerialPort.set_baud_rate, SerialPort.set_data_bits,
      SerialPort.set_parity, SerialPort.set_stop_bits,
      SerialPort.set_flow_control, SerialPort.set_timeout,
      SerialPort.reconfigure, SerialPort.close, hopen, hh, hget, *]

/-- Witness for C2 at the open port `sOpen7`: in the environment where the
control-block commit fails, `set_baud_rate 115200` force-closes the port,
returns the OS error, and the stored configuration keeps 115200; in the
all-failing environment (where `GetCommState` fails), `set_timeout 5s`
returns the OS error while the port remains open with the new timeout
stored. -/
theorem set_field_reapply_amended_witness :
    SerialPort.set_baud_rate envCommitFail sOpen7 115200 =
      ({ is_open := false, handle := none,
          builder := { bCOM1 with baud_rate := 115200 } },
        .error .osError)
    ∧ SerialPort.set_timeout envBase sOpen7 { secs := 5, nanos := 0 } =
      ({ is_open := true, handle := some 7,
          builder := { bCOM1 with timeout := { secs := 5, nanos := 0 } } },
        .error .osError) :=
  ⟨(set_field_reapply_amended envCommitFail sOpen7 7 rfl rfl).2.1
      ⟨dcbZero, rfl⟩ (fun _ => rfl) rfl |>.1 115200,
    (set_field_reapply_amended envBase sOpen7 7 rfl rfl).1 rfl
      |>.2.2.2.2.2 { secs := 5, nanos := 0 }⟩

/-- C3: setting the device identifier on an open port performs `close()`,
then updates the stored identifier, then `open()`.  An error from the close
step is returned with nothing updated; whenever the close step succeeded,
the identifier update is applied regardless of the reopen's outcome (the
whole call then behaves exactly as `open()` on the closed, re-identified
port) — in particular, for a nonexistent device the call returns an error,
the port ends Closed, and the stored identifier already holds the new
value. -/
theorem set_port_close_update_reopen (env : OsEnv) (s : SerialPort)
    (h : Nat) (path : List Char)
    (hopen : s.is_open = true) (hh : s.handle = some h) :
    (env.closeHandle (some h) = false →
      SerialPort.set_port env s path = (s, .error .osError))
    ∧ (env.closeHandle (some h) = true →
      SerialPort.set_port env s path =
        SerialPort.openPort env
          (SerialPort.set_raw_port { s with handle := none, is_open := false }
            path)
      ∧ ((SerialPort.set_port env s path).1).builder.port = path)
    ∧ (env.closeHandle (some h) = true →
      env.createFile (prefix_port path) = none → path ≠ [] →
      SerialPort.set_port env s path =
        (SerialPort.set_raw_port { s with handle := none, is_open := false }
          path, .error .osError)) := by
  refine ⟨fun hcf => ?_, fun hct => ⟨?_, ?_⟩, fun hct hnf hne => ?_⟩
  · simp [SerialPort.set_port, SerialPort.close, hopen, hh, hcf]
  · have hcl : SerialPort.close env s =
        ({ s with handle := none, is_open := false }, .ok ()) := by
      simp [SerialPort.close, hopen, hh, hct]
    rcases hr : SerialPort.openPort env
        (SerialPort.set_raw_port { s with handle := none, is_open := false }
          path) with ⟨s3, r⟩
    simp only [SerialPort.set_raw_port] at hr
    cases r <;>
      simp [SerialPort.set_port, hopen, hcl, SerialPort.set_raw_port, hr]
  · have hcl : SerialPort.close env s =
        ({ s with handle := none, is_open := false }, .ok ()) := by
      simp [SerialPort.close, hopen, hh, hct]
    have hb := openPort_preserves_builder env
      (SerialPort.set_raw_port { s with handle := none, is_open := false }
        path)
    rcases hr : SerialPort.openPort env
        (SerialPort.set_raw_port { s with handle := none, is_open := false }
          path) with ⟨s3, r⟩
    rw [hr] at hb
    simp only [SerialPort.set_raw_port] at hr
    cases r <;>
      simp_all [SerialPort.set_port, hopen, hcl, SerialPort.set_raw_port, hr]
  · have hcl : SerialPort.close env s =
        ({ s with handle := none, is_open := false }, .ok ()) := by
      simp [SerialPort.close, hopen, hh, hct]
    have hop : SerialPort.openPort env
        (SerialPort.set_raw_port { s with handle := none, is_open := false }
          path) =
        (SerialPort.set_raw_port { s with handle := none, is_open := false }
          path, .error .osError) := by
      simp [SerialPort.openPort, SerialPort.set_raw_port, hnf, hne]
    simp [SerialPort.set_port, hopen, hcl, hop]

/-- Witness for C3: on the open port `sOpen7`, setting the identifier to
the nonexistent device `PORT2` (every `CreateFileW` fails, `CloseHandle`
succeeds) returns an error, leaves the port Closed, and the stored
identifier already reads `PORT2`. -/
theorem set_port_close_update_reopen_witness :
    (SerialPort.set_port envNoDevice sOpen7 ['P', 'O', 'R', 'T', '2']).2
        = .error .osError
    ∧ ((SerialPort.set_port envNoDevice sOpen7
        ['P', 'O', 'R', 'T', '2']).1).is_open = false
    ∧ ((SerialPort.set_port envNoDevice sOpen7
        ['P', 'O', 'R', 'T', '2']).1).builder.port = ['P', 'O', 'R', 'T', '2'] := by
  have H := (set_port_close_update_reopen envNoDevice sOpen7 7
      ['P', 'O', 'R', 'T', '2'] rfl rfl).2.2 rfl rfl (by decide)
  rw [H]
  exact ⟨rfl, rfl, rfl⟩

/-- C7: on an open port, a `read()` whose underlying OS read succeeds with
zero bytes transferred returns `TimedOut` (for every requested buffer
length, including an empty request buffer), and a read transferring
`n > 0` bytes returns `Ok n`.  The state is unchanged either way. -/
theorem read_zero_bytes_timed_out (env : OsEnv) (s : SerialPort)
    (bufLen : Nat) (hopen : s.is_open = true) :
    (env.readFile s.handle (bufLen % 2 ^ 32) = some 0 →
      SerialPort.read env s bufLen = (s, .error .timedOut))
    ∧ (∀ n, env.readFile s.handle (bufLen % 2 ^ 32) = some n → 0 < n →
      SerialPort.read env s bufLen = (s, .ok n)) := by
  have he : (2 : Nat) ^ 32 = 4294967296 := by norm_num
  refine ⟨fun h0 => ?_, fun n hn hpos => ?_⟩
  · rw [he] at h0
    simp [SerialPort.read, hopen, h0]
  · rw [he] at hn
    cases n with
    | zero => omega
    | succ m => simp [SerialPort.read, hopen, hn]

/-- Witness for C7 at the open port `sOpen7` with an EMPTY request buffer
(`bufLen = 0`) in an environment whose read succeeds with zero bytes: the
call reports `TimedOut`. -/
theorem read_zero_bytes_timed_out_witness :
    SerialPort.read envReadZero sOpen7 0 = (sOpen7, .error .timedOut) :=
  (read_zero_bytes_timed_out envReadZero sOpen7 0 rfl).1 rfl

/-- C8 (counterexample): on the closed port `sClosed` (invalid stored
handle) with the OS rejecting the purge call — as it does for an invalid
handle — `clear(Input)` returns the mapped OS error, not `NotConnected`;
likewise `bytes_to_read` returns the OS error.  This refutes "every I/O
operation fails with NotConnected": `clear`, `bytes_to_read` and
`bytes_to_write` have no closed-port guard at all. -/
theorem closed_port_clear_not_notConnected_cex :
    SerialPort.clear envBase sClosed .Input = .error .osError
    ∧ SerialPort.clear envBase sClosed .Input ≠ .error .notConnected
    ∧ SerialPort.bytes_to_read envBase sClosed = .error .osError := by
  refine ⟨rfl, ?_, rfl⟩
  intro hcon
  rw [show SerialPort.clear envBase sClosed .Input = .error .osError from rfl]
    at hcon
  simp at hcon

/-- C8 (amended): on a closed port, `read()`, `write()` and `flush()` fail
with `NotConnected` and leave the port unchanged; `clear(selector)`,
`bytes_to_read()` and `bytes_to_write()` have no closed-port guard — they
issue the OS call on the stored (invalid) handle, surface the mapped OS
error (not `NotConnected`) when the OS rejects it, and leave the port
closed (they never mutate the state). -/
theorem closed_port_io_amended (env : OsEnv) (s : SerialPort)
    (sel : ClearBuffer) (hclosed : s.is_open = false) :
    (∀ bufLen, SerialPort.read env s bufLen = (s, .error .notConnected))
    ∧ (∀ bufLen, SerialPort.write env s bufLen = (s, .error .notConnected))
    ∧ SerialPort.flush env s = (s, .error .notConnected)
    ∧ ((∀ flags, env.purgeComm s.handle flags = false) →
      SerialPort.clear env s sel = .error .osError)
    ∧ (env.clearCommError s.handle = none →
      SerialPort.bytes_to_read env s = .error .osError
      ∧ SerialPort.bytes_to_write env s = .error .osError)
    := by
  refine ⟨fun bufLen => ?_, fun bufLen => ?_, ?_, fun hp => ?_, fun hc => ?_⟩
  · simp [SerialPort.read, hclosed]
  · simp [SerialPort.write, hclosed]
  · simp [SerialPort.flush, hclosed]
  · simp [SerialPort.clear, hp]
  · exact ⟨by simp [SerialPort.bytes_to_read, hc],
      by simp [SerialPort.bytes_to_write, hc]⟩

/-- Witness for C8 at the closed port `sClosed` in the all-failing
environment: reading fails `NotConnected` with the state unchanged, and
`clear(Output)` surfaces the OS error. -/
theorem closed_port_io_amended_witness :
    SerialPort.read envBase sClosed 64 = (sClosed, .error .notConnected)
    ∧ SerialPort.clear envBase sClosed .Output = .error .osError := by
  have H := closed_port_io_amended envBase sClosed .Output rfl
  exact ⟨H.1 64, H.2.2.2.1 (fun flags => rfl)⟩
